import Mathlib

/-!
Shallow embedding of the scrapii security-assessment engine.

The embedded code comes from two places in the repository:
* the `RealisticSecurityCalculator` / `SecurityIntegrationUtils` module
  (security integrator, "Versión 3.0 - Realistic Security Integration");
* the main application file `src/types.ts` (`getScoreGrade`,
  `calculatePrivacyScore`, `isSafeKnownPattern` and the credential-pattern
  processing of `detectVulnerableTechnologies`).

JavaScript numbers are modelled with `ℚ` where fractional values occur
(header quality scores, penalty modifiers) and with `ℤ`/`ℕ` where the
source only ever produces integers.  `Math.round` is `jsRound`
(round half toward positive infinity, as in JS).  JS string `includes`
is `strContains`; JS truthiness of a possibly-absent string is
`jsTruthy`/`jsHeaderValue` (the empty string is falsy).
-/

namespace Scrapii

/-- JS `Math.round`: round half toward `+∞` (computable via `Rat.floor`). -/
def jsRound (q : ℚ) : ℤ := (q + 1/2).floor

theorem jsRound_eq (q : ℚ) : jsRound q = ⌊q + 1/2⌋ := by
  rw [jsRound, Rat.floor_def, Rat.floor_def']

theorem jsRound_intCast (n : ℤ) : jsRound (n : ℚ) = n := by
  rw [jsRound_eq, add_comm, Int.floor_add_int]
  norm_num

theorem jsRound_natCast (n : ℕ) : jsRound (n : ℚ) = n := by
  have h := jsRound_intCast (n : ℤ)
  rwa [Int.cast_natCast] at h

/-- JS `String.prototype.includes pat` on `s`: `pat` occurs inside `s`. -/
def strContains (s pat : String) : Bool := decide (pat.data <:+: s.data)

/-- JS `String.prototype.toLowerCase` (ASCII, structural recursion so
that concrete instances evaluate in the kernel). -/
def strToLower (s : String) : String := ⟨s.data.map Char.toLower⟩

/-- JS `String.prototype.split('\n')` as a structural recursion on the
character list. -/
def splitLinesAux : List Char → List Char → List (List Char)
  | [], acc => [acc.reverse]
  | c :: rest, acc =>
      if c = '\n' then acc.reverse :: splitLinesAux rest []
      else splitLinesAux rest (c :: acc)

/-- The lines of `s`, in order, `'\n'`-separated. -/
def splitLines (s : String) : List (List Char) := splitLinesAux s.data []

/-- JS truthiness of a possibly-absent string value: `undefined` and the
empty string are falsy. -/
def jsHeaderValue : Option String → Option String
  | some s => if s.isEmpty then none else some s
  | none => none

/-! ## Data model of the security-integrator module -/

/-- `interface VulnerabilityData` of the integrator module. -/
structure VulnerabilityData where
  critical : ℕ
  high : ℕ
  medium : ℕ
  low : ℕ
deriving DecidableEq, Repr

/-- `SiteContext.type` union
`'static' | 'dynamic' | 'ecommerce' | 'enterprise' | 'government' | 'api' | 'single-page-app' | 'blog' | 'portfolio'`. -/
inductive SiteCtxType where
  | static | dynamic | ecommerce | enterprise | government | api
  | singlePageApp | blog | portfolio
deriving DecidableEq, Repr

/-- `interface SiteContext` of the integrator module.
`targetAudience` is kept as a plain string. -/
structure SiteContext where
  type : SiteCtxType
  hasUserGeneratedContent : Bool
  handlesFinancialData : Bool
  hasLoginSystem : Bool
  allowsFileUploads : Bool
  usesExternalAPIs : Bool
  hasThirdPartyIntegrations : Bool
  isPublicFacing : Bool
  usesHTTPS : Bool
  technologyStack : List String
  targetAudience : String
deriving DecidableEq, Repr

/-- `interface SecurityHeaders` of the integrator module: the seven tracked
response headers, each possibly absent.  Field order follows the
`HEADER_WEIGHTS` table. -/
structure SecurityHeaders where
  csp : Option String := none
  hsts : Option String := none
  frameOptions : Option String := none
  contentTypeOptions : Option String := none
  referrerPolicy : Option String := none
  permissionsPolicy : Option String := none
  xssProtection : Option String := none
deriving DecidableEq, Repr

/-- Lookup `headers[headerName]` for the seven tracked (lowercase) names. -/
def SecurityHeaders.get (h : SecurityHeaders) : String → Option String
  | "content-security-policy" => h.csp
  | "strict-transport-security" => h.hsts
  | "x-frame-options" => h.frameOptions
  | "x-content-type-options" => h.contentTypeOptions
  | "referrer-policy" => h.referrerPolicy
  | "permissions-policy" => h.permissionsPolicy
  | "x-xss-protection" => h.xssProtection
  | _ => none

/-- `headers.*.score` record returned by `evaluateHeadersRealistically`. -/
structure HeaderScore where
  present : ℤ
  missing : ℤ
  score : ℤ
deriving DecidableEq, Repr

/-- `interface SecurityScore` of the integrator module (the `details`
record is inlined). -/
structure SecurityScore where
  overall : ℤ
  grade : String
  riskLevel : String
  detailsBaseline : ℤ
  detailsHeaders : HeaderScore
  detailsVulnerabilities : VulnerabilityData
  detailsVulnScore : ℤ
  detailsBonus : ℤ
  detailsTotal : ℤ
deriving DecidableEq, Repr

/-! ## RealisticSecurityCalculator -/

/-- `SITE_BASELINES[siteType] || SITE_BASELINES.DEFAULT` (no baseline is
`0`, so JS `||` is a plain default lookup). -/
def SITE_BASELINES : String → ℤ
  | "ecommerce-standard" => 75
  | "ecommerce-premium" => 85
  | "enterprise-smb" => 70
  | "enterprise-corporate" => 80
  | "portfolio-professional" => 65
  | "saas-platform" => 78
  | "government" => 90
  | "financial" => 95
  | "healthcare" => 85
  | "education" => 75
  | "media-publisher" => 70
  | "blog-influencer" => 60
  | "landing-page-conversion" => 65
  | _ => 80

/-- `HEADER_WEIGHTS` table: `(headerName, weight, criticality)` in object
order. -/
def HEADER_WEIGHTS : List (String × ℚ × String) :=
  [("content-security-policy", 25, "CRITICAL"),
   ("strict-transport-security", 20, "CRITICAL"),
   ("x-frame-options", 15, "HIGH"),
   ("x-content-type-options", 12, "HIGH"),
   ("referrer-policy", 8, "MEDIUM"),
   ("permissions-policy", 6, "MEDIUM"),
   ("x-xss-protection", 3, "LOW")]

/-- `evaluateCSPQuality` (the `goodPractices.forEach` loop is unrolled over
its fixed three directives). -/
def evaluateCSPQuality (cspValue : String) : ℚ :=
  let hasNonces := strContains cspValue "nonce-" || strContains cspValue "sha256-"
  let hasUnsafeInline := strContains cspValue "\x27unsafe-inline\x27"
  let score : ℚ := 1/2
  let score := score + (if strContains cspValue "default-src" then 1/5 else 0)
  let score := score + (if strContains cspValue "script-src" then 1/5 else 0)
  let score := score + (if strContains cspValue "style-src" then 1/5 else 0)
  let score := score + (if !hasUnsafeInline then 3/10 else 0)
  let score := score + (if hasNonces then 1/5 else 0)
  min 1 score

/-- `evaluateHSTSQuality`. -/
def evaluateHSTSQuality (hstsValue : String) : ℚ :=
  let hasMaxAge := strContains hstsValue "max-age="
  let hasIncludeSubDomains := strContains hstsValue "includeSubDomains"
  let hasPreload := strContains hstsValue "preload"
  let score : ℚ := 3/10
  let score := score + (if hasMaxAge then 3/10 else 0)
  let score := score + (if hasIncludeSubDomains then 1/5 else 0)
  let score := score + (if hasPreload then 1/5 else 0)
  min 1 score

/-- `evaluateHeaderQuality` (the default branch `value ? 1.0 : 0.0` uses JS
string truthiness). -/
def evaluateHeaderQuality (headerName value : String) : ℚ :=
  match headerName with
  | "content-security-policy" => evaluateCSPQuality value
  | "strict-transport-security" => evaluateHSTSQuality value
  | "x-frame-options" =>
      if strContains value "DENY" || strContains value "SAMEORIGIN" then 1 else 7/10
  | _ => if value.isEmpty then 0 else 1

/-- `contextModifiers['static-site']`. -/
def staticSiteModifiers : String → Option ℚ
  | "content-security-policy" => some (3/10)
  | "referrer-policy" => some (1/2)
  | "permissions-policy" => some (2/5)
  | "x-xss-protection" => some (1/10)
  | _ => none

/-- `contextModifiers['api-only']`. -/
def apiOnlyModifiers : String → Option ℚ
  | "content-security-policy" => some 0
  | "x-frame-options" => some 0
  | "referrer-policy" => some (1/5)
  | _ => none

/-- `contextModifiers['blog-portfolio']`. -/
def blogPortfolioModifiers : String → Option ℚ
  | "content-security-policy" => some (2/5)
  | "x-frame-options" => some (3/10)
  | "referrer-policy" => some (11/10)
  | _ => none

/-- `calculateMissingHeaderPenalty`.  The JS object spreads
`{...modifiers, ...contextModifiers[...]}` are modelled as
right-biased lookup overrides; `criticality` is accepted but never read,
as in the source. -/
def calculateMissingHeaderPenalty (headerName : String) (criticality : String)
    (context : Option SiteContext) : ℚ :=
  let _ := criticality
  let penalty : ℚ := 1
  match context with
  | none => penalty
  | some ctx =>
    let m := staticSiteModifiers headerName
    let m := if ctx.type = .api ∨ ctx.type = .enterprise then
               match apiOnlyModifiers headerName with
               | some v => some v
               | none => m
             else m
    let m := if ctx.type = .blog ∨ ctx.type = .portfolio then
               match blogPortfolioModifiers headerName with
               | some v => some v
               | none => m
             else m
    match m with
    | some v => penalty * v
    | none => penalty

/-- One iteration of the `for (const [headerName, config] of
Object.entries(this.HEADER_WEIGHTS))` loop, accumulating
`(presentPoints, missingPoints)`. -/
def headerStep (headers : SecurityHeaders) (context : Option SiteContext)
    (acc : ℚ × ℚ) (entry : String × ℚ × String) : ℚ × ℚ :=
  let headerName := entry.1
  let weight := entry.2.1
  let criticality := entry.2.2
  match jsHeaderValue (headers.get headerName) with
  | some headerValue =>
      (acc.1 + weight * evaluateHeaderQuality headerName headerValue, acc.2)
  | none =>
      (acc.1,
       acc.2 + weight * calculateMissingHeaderPenalty headerName criticality context)

/-- `evaluateHeadersRealistically`.  NOTE (faithful to the source): the
returned `score` is `Math.round(presentPoints + missingPoints)` — the
missing-header "penalty" points are ADDED to the score, not subtracted. -/
def evaluateHeadersRealistically (headers : SecurityHeaders)
    (context : Option SiteContext) : HeaderScore :=
  let acc := HEADER_WEIGHTS.foldl (headerStep headers context) (0, 0)
  { present := jsRound acc.1
    missing := jsRound acc.2
    score := jsRound (acc.1 + acc.2) }

/-- `VULNERABILITY_PENALTIES`. -/
def VULNERABILITY_PENALTIES_CRITICAL : ℕ := 25
def VULNERABILITY_PENALTIES_HIGH : ℕ := 12
def VULNERABILITY_PENALTIES_MEDIUM : ℕ := 5
def VULNERABILITY_PENALTIES_LOW : ℕ := 2

/-- `evaluateVulnerabilitiesRealistically`: per-severity occurrence caps,
then an overall cap of 30, negated. -/
def evaluateVulnerabilitiesRealistically (vulns : VulnerabilityData) : ℤ :=
  let totalPenalty : ℕ := 0
  let totalPenalty := totalPenalty +
    (if vulns.critical > 0 then VULNERABILITY_PENALTIES_CRITICAL * min vulns.critical 3 else 0)
  let totalPenalty := totalPenalty +
    (if vulns.high > 0 then VULNERABILITY_PENALTIES_HIGH * min vulns.high 5 else 0)
  let totalPenalty := totalPenalty +
    (if vulns.medium > 0 then VULNERABILITY_PENALTIES_MEDIUM * min vulns.medium 8 else 0)
  let totalPenalty := totalPenalty +
    (if vulns.low > 0 then VULNERABILITY_PENALTIES_LOW * min vulns.low 10 else 0)
  let rounded : ℤ := jsRound ((min totalPenalty 30 : ℕ) : ℚ)
  Neg.neg rounded

/-- `calculateContextualBonus`. -/
def calculateContextualBonus (headers : SecurityHeaders)
    (vulnerabilities : VulnerabilityData) (context : Option SiteContext) : ℤ :=
  let bonus : ℤ := 0
  let bonus := bonus +
    (match headers.hsts with
     | some s => if strContains s "max-age" then 5 else 0
     | none => 0)
  let totalVulns := vulnerabilities.critical + vulnerabilities.high +
    vulnerabilities.medium + vulnerabilities.low
  let bonus := bonus + (if totalVulns = 0 then 3 else if totalVulns ≤ 2 then 1 else 0)
  let bonus := bonus +
    (match context with
     | some ctx =>
        (if (ctx.type = .blog ∨ ctx.type = .portfolio) ∧ ctx.hasUserGeneratedContent = false
         then 2 else 0) +
        (if ctx.handlesFinancialData = false ∧ ctx.hasLoginSystem = false ∧
            ctx.allowsFileUploads = false
         then 3 else 0)
     | none => 0)
  bonus

/-- `calculateGrade`: the 11-step threshold table of the integrator module. -/
def calculateGrade (score : ℚ) : String :=
  if score ≥ 95 then "A+"
  else if score ≥ 90 then "A"
  else if score ≥ 85 then "A-"
  else if score ≥ 80 then "B+"
  else if score ≥ 75 then "B"
  else if score ≥ 70 then "B-"
  else if score ≥ 65 then "C+"
  else if score ≥ 60 then "C"
  else if score ≥ 55 then "C-"
  else if score ≥ 50 then "D"
  else "F"

/-- `calculateRiskLevel` (the source also binds an unused `hasHighVulns`). -/
def calculateRiskLevel (score : ℚ) (vulnerabilities : VulnerabilityData) : String :=
  let hasCriticalVulns := vulnerabilities.critical > 0
  if score ≥ 85 ∧ ¬hasCriticalVulns ∧ vulnerabilities.high ≤ 1 then "Bajo"
  else if score ≥ 70 ∧ ¬hasCriticalVulns then "Medio"
  else if score ≥ 50 ∨ vulnerabilities.high > 2 then "Alto"
  else "Crítico"

/-- `calculateRealisticScore`.  The four summands of `total` are all
integer-valued (the header score is already `Math.round`ed), so `total`
is taken in `ℤ` and `Math.round`/clamp applied exactly as in the source. -/
def calculateRealisticScore (headers : SecurityHeaders)
    (vulnerabilities : VulnerabilityData) (siteType : String := "DEFAULT")
    (context : Option SiteContext := none) : SecurityScore :=
  let baseline := SITE_BASELINES siteType
  let headersScore := evaluateHeadersRealistically headers context
  let vulnScore := evaluateVulnerabilitiesRealistically vulnerabilities
  let bonusScore := calculateContextualBonus headers vulnerabilities context
  let total : ℤ := max 0 (min 100 (baseline + headersScore.score + vulnScore + bonusScore))
  let grade := calculateGrade (total : ℚ)
  let riskLevel := calculateRiskLevel (total : ℚ) vulnerabilities
  { overall := jsRound (total : ℚ)
    grade := grade
    riskLevel := riskLevel
    detailsBaseline := baseline
    detailsHeaders := headersScore
    detailsVulnerabilities := vulnerabilities
    detailsVulnScore := vulnScore
    detailsBonus := bonusScore
    detailsTotal := total }

/-! ## Data model of `src/types.ts` (fields read by the embedded code) -/

/-- Entries of `ScrapedData.technologies`:
`{ name: string; version?: string; currentVersion?: string }`. -/
structure Technology where
  name : String
  version : Option String := none
  currentVersion : Option String := none
deriving DecidableEq, Repr

/-- `technologyRecord === someString` is always `false` in JS: strict
equality between values of different runtime types never holds. -/
def jsStrictEqRecStr (t : Technology) (s : String) : Bool :=
  let _ := t
  let _ := s
  false

/-- JS `Array.prototype.includes` called with a STRING argument on the
`technologies` array, whose elements are records `{name, version?, ...}`:
`includes` compares with SameValueZero (strict) equality, and a record is
never equal to a string, so every element comparison is `false`.  This
models `data.technologies.includes('React')` / `includes('Vue.js')` in
`determineSiteType` and `includes('PHP')` / `includes('Node.js')` in
`generateSiteContext`. -/
def jsIncludesStr (arr : List Technology) (s : String) : Bool :=
  arr.any (fun t => jsStrictEqRecStr t s)

/-- `ScrapedData.usersDetected`. -/
structure UsersDetected where
  hasUsers : Bool
  accessPoints : List String
deriving DecidableEq, Repr

/-- Fields of `interface EcommerceData` read by the embedded code
(`products`, `structuredData` and `shoppingFeatures` are never read by
the scoring path). -/
structure EcommerceData where
  paymentMethods : List String
  totalProducts : ℕ
deriving DecidableEq, Repr

/-- One record of `securityHeaders.detailed.*`:
`{present: bool, valid: bool, content: string}` (`hsts` also carries a
`maxAge` that the scoring path never reads). -/
structure DetailedHeader where
  present : Bool
  valid : Bool
  content : String
deriving DecidableEq, Repr

/-- `securityHeaders.detailed` of `interface SecurityHeaders`
(`infoDisclosure` is never read by the scoring path). -/
structure DetailedHeaders where
  csp : DetailedHeader
  hsts : DetailedHeader
  xssProtection : DetailedHeader
  referrerPolicy : DetailedHeader
  frameOptions : DetailedHeader
deriving DecidableEq, Repr

/-- `interface SecurityHeaders` of `src/types.ts` (boolean summary flags
plus the optional `detailed` record). -/
structure SecurityHeadersInfo where
  csp : Bool
  hsts : Bool
  xss : Bool
  contentType : Bool
  detailed : Option DetailedHeaders := none
deriving DecidableEq, Repr

/-- Fields of `interface SSLAnalysis` read by the embedded code. -/
structure SSLAnalysis where
  hasSSL : Bool
  validCertificate : Bool
  tlsVersion : String
  httpsEnabled : Bool
deriving DecidableEq, Repr

/-- `interface VulnerableTechnology`.  A `context` field is not declared
in the interface, but `filterFalsePositives` reads `vuln.context || ''`
from its (untyped) argument records, so it is kept here as an optional
extra property (`none` = `undefined`). -/
structure VulnerableTechnology where
  name : String
  version : String
  vulnerability : String
  severity : String
  lineNumbers : List ℕ := []
  recommendation : Option String := none
  context : Option String := none
deriving DecidableEq, Repr

/-- Fields of `interface SecurityAnalysis` read by the embedded code. -/
structure SecurityAnalysis where
  securityHeaders : SecurityHeadersInfo
  sslAnalysis : SSLAnalysis
  vulnerableTechnologies : List VulnerableTechnology
  privacyScore : ℤ := 0
  externalLinks : ℕ := 0
  imagesWithoutAlt : ℕ := 0
  cookiesDetected : ℕ := 0
deriving DecidableEq, Repr

/-- Fields of `interface ScrapedData` read by the embedded code.
`ecommerce` is modelled as runtime-nullable: `determineSiteType` itself
guards it with `data.ecommerce && ...`, while `generateSiteContext`
dereferences it unguarded — that unguarded access is the primary
scorer's exception path. -/
structure ScrapedData where
  title : String
  url : String
  technologies : List Technology
  ecommerce : Option EcommerceData
  securityAnalysis : SecurityAnalysis
  usersDetected : UsersDetected
deriving DecidableEq, Repr

/-- A JS property access on a possibly-`null`/`undefined` base: raises
`TypeError` (modelled as `Except.error ()`) when the base is absent. -/
def jsDeref {α : Type} : Option α → Except Unit α
  | some a => .ok a
  | none => .error ()

/-! ## determineSiteType / generateSiteContext -/

/-- Tail of `determineSiteType` after the e-commerce branch. -/
def determineSiteTypeRest (data : ScrapedData) : String :=
  if jsIncludesStr data.technologies "React" || jsIncludesStr data.technologies "Vue.js" then
    "saas-platform"
  else if data.usersDetected.hasUsers && data.usersDetected.accessPoints.length > 3 then
    "enterprise-corporate"
  else if !data.title.isEmpty && (strContains data.title "blog" || strContains data.title "portfolio") then
    "portfolio-professional"
  else
    "enterprise-smb"

/-- `determineSiteType` (`data.ecommerce && data.ecommerce.totalProducts > 0`
guards the nullable `ecommerce`; `data.title && data.title.includes(...)`
uses string truthiness, handled in `determineSiteTypeRest`). -/
def determineSiteType (data : ScrapedData) : String :=
  match data.ecommerce with
  | some ec =>
      if ec.totalProducts > 0 then
        if ec.totalProducts > 50 then "ecommerce-premium" else "ecommerce-standard"
      else determineSiteTypeRest data
  | none => determineSiteTypeRest data

/-- `mapSiteTypeToContext`. -/
def mapSiteTypeToContext (siteType : String) : SiteCtxType :=
  match siteType with
  | "ecommerce-standard" => .enterprise
  | "ecommerce-premium" => .enterprise
  | "enterprise-smb" => .enterprise
  | "enterprise-corporate" => .enterprise
  | "saas-platform" => .enterprise
  | "portfolio-professional" => .portfolio
  | "blog-influencer" => .blog
  | _ => .enterprise

/-- `generateSiteContext`.  `data.ecommerce.paymentMethods` is the first
unguarded access to the nullable `ecommerce` field, so the whole call
raises when `ecommerce` is absent.  `technologyStack` maps records to
their `name` property. -/
def generateSiteContext (data : ScrapedData) (siteType : String) :
    Except Unit SiteContext := do
  let ec ← jsDeref data.ecommerce
  pure
    { type := mapSiteTypeToContext siteType
      hasUserGeneratedContent := data.usersDetected.hasUsers
      handlesFinancialData := ec.paymentMethods.length > 0
      hasLoginSystem := data.usersDetected.hasUsers
      allowsFileUploads :=
        jsIncludesStr data.technologies "PHP" || jsIncludesStr data.technologies "Node.js"
      usesExternalAPIs := data.securityAnalysis.externalLinks > 5
      hasThirdPartyIntegrations := data.securityAnalysis.externalLinks > 3
      isPublicFacing := true
      usesHTTPS := data.securityAnalysis.sslAnalysis.httpsEnabled
      technologyStack := data.technologies.map (fun t => t.name)
      targetAudience := "general" }

/-! ## SecurityIntegrationUtils.filterFalsePositives -/

/-- List literal `vendorScripts` of `filterFalsePositives`. -/
def vendorScripts : List String :=
  ["googletagmanager", "gtm", "tag manager",
   "intercom", "widget.intercom.io",
   "google", "maps.googleapis.com",
   "clarity.ms", "analytics",
   "pendo", "zapier", "stripe"]

/-- List literal `vendorConsole` of `filterFalsePositives`. -/
def vendorConsole : List String :=
  ["google maps javascript api",
   "only loads once",
   "already loaded",
   "library",
   "vendor",
   "third-party"]

/-- The predicate of `vulnerabilities.filter(vuln => ...)` inside
`filterFalsePositives`: `true` means the finding is kept. -/
def keepFinding (vuln : VulnerableTechnology) : Bool :=
  let vulnText := strToLower vuln.vulnerability
  let contextText := strToLower (vuln.context.getD "")
  -- 1. document.write() from legitimate third-party vendor scripts
  if strContains vulnText "document.write" &&
     vendorScripts.any (fun vendor =>
       strContains contextText vendor || strContains vulnText vendor) then
    false
  -- 2. console.warn/log from external libraries
  else if strContains vulnText "console." &&
     vendorConsole.any (fun pat =>
       strContains contextText pat || strContains vulnText pat) then
    false
  -- 3. JSON.parse already wrapped in try-catch
  else if strContains vulnText "json.parse" &&
     ((strContains contextText "try" && strContains contextText "catch") ||
      (strContains contextText "catch (e)" || strContains contextText "catch(e)")) then
    false
  -- 4. RegExp.exec() inside legitimate parsing code
  else if (strContains vulnText "regexp" || strContains vulnText ".exec(") &&
     (strContains contextText "getparametername" ||
      strContains contextText "getparameter" ||
      strContains contextText "parse" ||
      strContains contextText "extract" ||
      strContains contextText "match") then
    false
  else
    -- 5./6./7. Google services, safe dev configuration, safe innerHTML
    let isGoogleSafe :=
      strContains vulnText "google" ||
      strContains vulnText "gtm" ||
      strContains vulnText "tag manager" ||
      strContains vulnText "maps api" ||
      strContains vulnText "analytics" ||
      strContains vulnText "firebase" ||
      strContains vulnText "gapi"
    let isDevSafe :=
      strContains vulnText "debug mode" ||
      strContains vulnText "development"
    let isSafeInnerHTML :=
      strContains vulnText "innerhtml" &&
      (strContains vulnText "hardcoded" ||
       strContains vulnText "safe" ||
       strContains vulnText "sanitized")
    !isGoogleSafe && !isDevSafe && !isSafeInnerHTML

/-- `SecurityIntegrationUtils.filterFalsePositives`. -/
def filterFalsePositives (vulnerabilities : List VulnerableTechnology) :
    List VulnerableTechnology :=
  vulnerabilities.filter keepFinding

/-! ## getScoreGrade and calculatePrivacyScore (`src/types.ts`) -/

/-- `getScoreGrade`: the legacy 11-step grade table of the main
application. -/
def getScoreGrade (score : ℚ) : String :=
  if score ≥ 95 then "A+"
  else if score ≥ 90 then "A"
  else if score ≥ 85 then "A-"
  else if score ≥ 80 then "B+"
  else if score ≥ 75 then "B"
  else if score ≥ 70 then "B-"
  else if score ≥ 65 then "C+"
  else if score ≥ 60 then "C"
  else if score ≥ 55 then "C-"
  else if score ≥ 50 then "D"
  else "F"

/-- The `try` block of `calculatePrivacyScore` (the "new realistic
scoring system"); the `logger` calls are side-effect free for the score.
Header normalization and vulnerability normalization are inlined exactly
as in the source. -/
def calculatePrivacyScorePrimary (data : ScrapedData) : Except Unit ℤ := do
  let siteType := determineSiteType data
  let siteContext ← generateSiteContext data siteType
  let filteredVulnerabilities :=
    filterFalsePositives data.securityAnalysis.vulnerableTechnologies
  let headers := data.securityAnalysis.securityHeaders
  let normalizedHeaders : SecurityHeaders :=
    { csp := match headers.detailed with
        | some d => if d.csp.present then some d.csp.content else none
        | none => none
      hsts := match headers.detailed with
        | some d => if d.hsts.present then some d.hsts.content else none
        | none => none
      frameOptions := match headers.detailed with
        | some d => if d.frameOptions.present then some d.frameOptions.content else none
        | none => none
      contentTypeOptions := if headers.contentType then some "nosniff" else none
      referrerPolicy := match headers.detailed with
        | some d => if d.referrerPolicy.present then some d.referrerPolicy.content else none
        | none => none
      permissionsPolicy := none  -- "No está en el tipo actual"
      xssProtection := match headers.detailed with
        | some d => if d.xssProtection.present then some d.xssProtection.content else none
        | none => none }
  let normalizedVulnerabilities : VulnerabilityData :=
    { critical := (filteredVulnerabilities.filter (fun v => v.severity = "critical")).length
      high := (filteredVulnerabilities.filter (fun v => v.severity = "high")).length
      medium := (filteredVulnerabilities.filter (fun v => v.severity = "medium")).length
      low := (filteredVulnerabilities.filter (fun v => v.severity = "low")).length }
  let securityScore :=
    calculateRealisticScore normalizedHeaders normalizedVulnerabilities siteType
      (some siteContext)
  pure securityScore.overall

/-- The `catch` block of `calculatePrivacyScore`: the simplified fallback
scorer. -/
def calculatePrivacyScoreFallback (data : ScrapedData) : ℤ :=
  let score : ℤ := 80
  let score := score + (if data.securityAnalysis.securityHeaders.csp then 10 else 0)
  let score := score + (if data.securityAnalysis.securityHeaders.hsts then 8 else 0)
  let score := score + (if data.securityAnalysis.securityHeaders.xss then 5 else 0)
  let score := score + (if data.securityAnalysis.securityHeaders.contentType then 3 else 0)
  let score := score + (if data.securityAnalysis.sslAnalysis.httpsEnabled then 12 else 0)
  let criticalVulns :=
    (data.securityAnalysis.vulnerableTechnologies.filter
      (fun v => v.severity = "critical")).length
  let highVulns :=
    (data.securityAnalysis.vulnerableTechnologies.filter
      (fun v => v.severity = "high")).length
  let mediumVulns :=
    (data.securityAnalysis.vulnerableTechnologies.filter
      (fun v => v.severity = "medium")).length
  let score := score - min ((criticalVulns : ℤ) * 15) 25
  let score := score - min ((highVulns : ℤ) * 8) 20
  let score := score - min ((mediumVulns : ℤ) * 3) 10
  let score := if data.securityAnalysis.sslAnalysis.httpsEnabled then max score 65 else score
  max 0 (min 100 (jsRound (score : ℚ)))

/-- `calculatePrivacyScore`: the primary scorer under `try`, with the
fallback scorer in the `catch`. -/
def calculatePrivacyScore (data : ScrapedData) : ℤ :=
  match calculatePrivacyScorePrimary data with
  | .ok s => s
  | .error _ => calculatePrivacyScoreFallback data

/-! ## Credential scanner of `detectVulnerableTechnologies` (`src/types.ts`)

The anchored safe-pattern regexes of `isSafeKnownPattern` and the
`password["']?\s*[:=]\s*["']([^"']{6,})["']` credential pattern are
simple enough that their JS regex semantics can be translated directly
into character-list matchers (greedy character classes followed by a
disjoint terminator need no backtracking). -/

/-- Character class `[a-zA-Z0-9_-]`. -/
def isWordDashChar (c : Char) : Bool := c.isAlphanum || c = '_' || c = '-'

/-- Character class `[A-Z0-9]`. -/
def isUpperDigitChar (c : Char) : Bool := c.isUpper || c.isDigit

/-- Character class `[a-zA-Z0-9]`. -/
def isAlphanumChar (c : Char) : Bool := c.isAlphanum

/-- Anchored match `^lit...$`: literal head then a check on the rest. -/
def litThen (lit : String) (restOk : List Char → Bool) (text : String) : Bool :=
  decide (lit.data <+: text.data) && restOk (text.data.drop lit.data.length)

/-- `/^AIzaSy[a-zA-Z0-9_-]{35}$/` — Google Maps API Key. -/
def safeGoogleMaps : String → Bool :=
  litThen "AIzaSy" (fun r => r.length = 35 && r.all isWordDashChar)

/-- `/^GTM-[A-Z0-9]{6,8}$/` — Google Tag Manager ID. -/
def safeGTM : String → Bool :=
  litThen "GTM-" (fun r => 6 ≤ r.length && r.length ≤ 8 && r.all isUpperDigitChar)

/-- `/^UA-\d{4,}-\d+$/` — Universal Analytics ID. -/
def safeUA : String → Bool :=
  litThen "UA-" (fun r =>
    let ds := r.takeWhile Char.isDigit
    match r.drop ds.length with
    | c :: r3 => 4 ≤ ds.length && c = '-' && !r3.isEmpty && r3.all Char.isDigit
    | [] => false)

/-- `/^G-[A-Z0-9]{8,}$/` — Google Analytics 4 ID. -/
def safeGA4 : String → Bool :=
  litThen "G-" (fun r => 8 ≤ r.length && r.all isUpperDigitChar)

/-- `/^firebase[_-]?[a-zA-Z0-9_-]*$/` — Firebase keys (the optional
`[_-]` is subsumed by the following class, so the rest is any run of
`[a-zA-Z0-9_-]`). -/
def safeFirebase : String → Bool :=
  litThen "firebase" (fun r => r.all isWordDashChar)

/-- `/^pk_test_[a-zA-Z0-9]{24,}$/` — Stripe test keys. -/
def safePkTest : String → Bool :=
  litThen "pk_test_" (fun r => 24 ≤ r.length && r.all isAlphanumChar)

/-- `/^pk_live_[a-zA-Z0-9]{24,}$/` — Stripe live public keys. -/
def safePkLive : String → Bool :=
  litThen "pk_live_" (fun r => 24 ≤ r.length && r.all isAlphanumChar)

/-- `/^fb\d{13,}$/` — Facebook App ID. -/
def safeFb : String → Bool :=
  litThen "fb" (fun r => 13 ≤ r.length && r.all Char.isDigit)

/-- `/^ca\d{19}$/` — alternative Facebook App ID. -/
def safeCa : String → Bool :=
  litThen "ca" (fun r => r.length = 19 && r.all Char.isDigit)

/-- `/^ghp_[a-zA-Z0-9]{36}$/` — GitHub Personal Access Token. -/
def safeGhp : String → Bool :=
  litThen "ghp_" (fun r => r.length = 36 && r.all isAlphanumChar)

/-- `/^eyJ[a-zA-Z0-9_-]*$/` — JWT tokens. -/
def safeJWT : String → Bool :=
  litThen "eyJ" (fun r => r.all isWordDashChar)

/-- `/^[a-zA-Z0-9_-]{32}$/` — generic 32-char tokens. -/
def safeGeneric32 (text : String) : Bool :=
  text.data.length = 32 && text.data.all isWordDashChar

/-- `/^[a-zA-Z0-9_-]{40}$/` — generic 40-char tokens. -/
def safeGeneric40 (text : String) : Bool :=
  text.data.length = 40 && text.data.all isWordDashChar

/-- `isSafeKnownPattern`: `safePatterns.some(pattern => pattern.test(text))`. -/
def isSafeKnownPattern (text : String) : Bool :=
  safeGoogleMaps text || safeGTM text || safeUA text || safeGA4 text ||
  safeFirebase text || safePkTest text || safePkLive text ||
  safeFb text || safeCa text || safeGhp text || safeJWT text ||
  safeGeneric32 text || safeGeneric40 text

/-- The `isLegitimateService` context heuristic applied to the extracted
key value inside the credential-pattern filter. -/
def isLegitimateService (keyValue : String) : Bool :=
  let kl := strToLower keyValue
  strContains kl "google" ||
  strContains kl "firebase" ||
  strContains kl "gtm" ||
  strContains kl "analytics" ||
  decide ("pk_".data <+: kl.data) ||
  decide ("ua-".data <+: kl.data) ||
  decide ("g-".data <+: kl.data)

/-- JS whitespace class `\s` (the characters that occur in practice). -/
def isSpaceChar (c : Char) : Bool := c = ' ' || c = '\t' || c = '\n' || c = '\r'

/-- Character class `["']`. -/
def isQuoteChar (c : Char) : Bool := c = '"' || c = '\x27'

/-- First match of `/["']([^"']+)["']/`: scan for a quote, take the
maximal run of non-quote characters after it, and require the run to be
nonempty and closed by another quote; otherwise resume scanning one
character further (the regex engine's retry position). -/
def extractFirstQuoted : List Char → Option String
  | [] => none
  | c :: rest =>
    if isQuoteChar c then
      let run := rest.takeWhile (fun d => !isQuoteChar d)
      if !run.isEmpty && !(rest.drop run.length).isEmpty then some ⟨run⟩
      else extractFirstQuoted rest
    else extractFirstQuoted rest

/-- Match of the tail of `/password["']?\s*[:=]\s*["']([^"']{6,})["']/`
starting right after the literal; returns the number of consumed
characters.  The optional quote, the greedy `\s*` runs and the greedy
`[^"']{6,}` run are each followed by a disjoint required character, so
the regex is deterministic. -/
def matchPasswordTail (rest : List Char) : Option ℕ :=
  let qr := match rest with
    | c :: t => if isQuoteChar c then (1, t) else (0, rest)
    | [] => (0, rest)
  let sp1 := qr.2.takeWhile isSpaceChar
  match qr.2.drop sp1.length with
  | c :: r3 =>
    if c = ':' || c = '=' then
      let sp2 := r3.takeWhile isSpaceChar
      match r3.drop sp2.length with
      | d :: r5 =>
        if isQuoteChar d then
          let run := r5.takeWhile (fun e => !isQuoteChar e)
          if 6 ≤ run.length && !(r5.drop run.length).isEmpty then
            some (qr.1 + sp1.length + 1 + sp2.length + 1 + run.length + 1)
          else none
        else none
      | [] => none
    else none
  | [] => none

/-- Match of the whole password credential pattern at the head of `cs`
(case-insensitive literal `password`, flag `i`); returns the match
length. -/
def matchPasswordAt (cs : List Char) : Option ℕ :=
  if (cs.take 8).map Char.toLower = "password".data then
    (matchPasswordTail (cs.drop 8)).map (fun n => 8 + n)
  else none

/-- Left-to-right scan collecting all non-overlapping matches of the
password credential pattern, as JS `String.match` with the `g` flag.
The fuel argument only bounds the recursion; every step consumes at
least one character, so `fuel = cs.length` is exact. -/
def passwordMatchesAux : ℕ → List Char → List (List Char)
  | 0, _ => []
  | _, [] => []
  | Nat.succ fuel, c :: rest =>
      match matchPasswordAt (c :: rest) with
      | some len => (c :: rest).take len :: passwordMatchesAux fuel ((c :: rest).drop len)
      | none => passwordMatchesAux fuel rest

/-- `html.match(/password["']?\s*[:=]\s*["']([^"']{6,})["']/gi)`. -/
def passwordMatches (cs : List Char) : List (List Char) :=
  passwordMatchesAux cs.length cs

/-- The anti-false-positive filter applied to each raw match (`true`
keeps the match in `safeMatches`): extract the first quoted group of the
match text, drop it if it is an allowlisted safe pattern or a legitimate
service, keep it otherwise (and keep matches with no extractable quoted
value). -/
def passwordKeyValueOk (m : List Char) : Bool :=
  match extractFirstQuoted m with
  | some keyValue =>
      if isSafeKnownPattern keyValue then false
      else if isLegitimateService keyValue then false
      else true
  | none => true

/-- The evidence-line scan for the password pattern: for each line on
which the pattern tests positive, re-extract the line's first quoted
value and record the 1-based line number unless that value is an
allowlisted safe pattern (the legitimate-service heuristic is NOT
re-applied here, faithful to the source). -/
def passwordFoundLines (html : String) : List ℕ :=
  ((splitLines html).enum).filterMap fun p =>
    if !(passwordMatches p.2).isEmpty then
      match extractFirstQuoted p.2 with
      | some keyValue => if !isSafeKnownPattern keyValue then some (p.1 + 1) else none
      | none => some (p.1 + 1)
    else none

/-- Processing of the `password` entry of `credentialPatterns` in
`detectVulnerableTechnologies`: raw matches, `safeMatches` filter,
evidence-line scan, and finding construction. -/
def passwordCredentialFindings (html : String) : List VulnerableTechnology :=
  let ms := passwordMatches html.data
  if ms.length > 0 then
    let safeMatches := ms.filter passwordKeyValueOk
    if safeMatches.length > 0 then
      let foundLines := passwordFoundLines html
      if foundLines.length > 0 then
        [{ name := "🔑 HARDCODED CREDENTIAL"
           version := "Líneas: " ++ String.intercalate ", " ((foundLines.take 3).map toString)
             ++ (if foundLines.length > 3 then "..." else "")
           vulnerability := "Hardcoded Password detected - Contraseñas hardcodeadas exponen acceso directo a sistemas y bases de datos"
           severity := "critical"
           lineNumbers := foundLines
           recommendation := some "Usar sistemas de autenticación seguros y hashing de contraseñas" }]
      else []
    else []
  else []

/-! ## Helper lemmas -/

/-- `overall` unfolded: the `Math.round` around the clamped integer total
is the identity. -/
theorem overall_spec (headers : SecurityHeaders) (vulns : VulnerabilityData)
    (siteType : String) (context : Option SiteContext) :
    (calculateRealisticScore headers vulns siteType context).overall =
      max 0 (min 100 (SITE_BASELINES siteType +
        (evaluateHeadersRealistically headers context).score +
        evaluateVulnerabilitiesRealistically vulns +
        calculateContextualBonus headers vulns context)) := by
  simp only [calculateRealisticScore]
  rw [jsRound_intCast]

/-- `riskLevel` unfolded. -/
theorem riskLevel_spec (headers : SecurityHeaders) (vulns : VulnerabilityData)
    (siteType : String) (context : Option SiteContext) :
    (calculateRealisticScore headers vulns siteType context).riskLevel =
      calculateRiskLevel
        ((max 0 (min 100 (SITE_BASELINES siteType +
          (evaluateHeadersRealistically headers context).score +
          evaluateVulnerabilitiesRealistically vulns +
          calculateContextualBonus headers vulns context)) : ℤ) : ℚ) vulns := by
  simp [calculateRealisticScore]

/-- Closed form of the vulnerability penalty: per-severity occurrence
caps, overall cap of 30, negated. -/
theorem vuln_formula (v : VulnerabilityData) :
    evaluateVulnerabilitiesRealistically v =
      -((min (VULNERABILITY_PENALTIES_CRITICAL * min v.critical 3 +
              VULNERABILITY_PENALTIES_HIGH * min v.high 5 +
              VULNERABILITY_PENALTIES_MEDIUM * min v.medium 8 +
              VULNERABILITY_PENALTIES_LOW * min v.low 10) 30 : ℕ) : ℤ) := by
  simp only [evaluateVulnerabilitiesRealistically, jsRound_natCast]
  simp only [VULNERABILITY_PENALTIES_CRITICAL, VULNERABILITY_PENALTIES_HIGH,
    VULNERABILITY_PENALTIES_MEDIUM, VULNERABILITY_PENALTIES_LOW]
  split_ifs <;> (congr 1; omega)

/-! ## Claims -/

/-- C1: for every input, `calculateRealisticScore` returns an overall
score equal to the clamp of
`baseline[siteType] + headerScore + vulnerabilityPenalty + contextualBonus`
to `[0, 100]`; in particular the overall score is in `[0, 100]` for all
inputs. -/
theorem claim_C1 (headers : SecurityHeaders) (vulns : VulnerabilityData)
    (siteType : String) (context : Option SiteContext) :
    (calculateRealisticScore headers vulns siteType context).overall =
      max 0 (min 100 (SITE_BASELINES siteType +
        (evaluateHeadersRealistically headers context).score +
        evaluateVulnerabilitiesRealistically vulns +
        calculateContextualBonus headers vulns context)) ∧
    0 ≤ (calculateRealisticScore headers vulns siteType context).overall ∧
    (calculateRealisticScore headers vulns siteType context).overall ≤ 100 := by
  refine ⟨overall_spec headers vulns siteType context, ?_, ?_⟩ <;>
    rw [overall_spec] <;> omega

/-- C2: the vulnerability penalty sums severity-weighted penalties with
per-severity occurrence caps (critical 3×25, high 5×12, medium 8×5, low
10×2) and an overall cap of 30 on the summed penalty; for 4 critical
findings the critical-tier contribution is `25 * min 4 3 = 75` (not 100),
and with no headers and HTTP only the overall score never goes below 0. -/
theorem claim_C2 :
    (∀ v : VulnerabilityData,
      evaluateVulnerabilitiesRealistically v =
        -((min (VULNERABILITY_PENALTIES_CRITICAL * min v.critical 3 +
                VULNERABILITY_PENALTIES_HIGH * min v.high 5 +
                VULNERABILITY_PENALTIES_MEDIUM * min v.medium 8 +
                VULNERABILITY_PENALTIES_LOW * min v.low 10) 30 : ℕ) : ℤ)) ∧
    VULNERABILITY_PENALTIES_CRITICAL * min 4 3 = 75 ∧
    evaluateVulnerabilitiesRealistically ⟨4, 0, 0, 0⟩ = -30 ∧
    (∀ siteType context,
      0 ≤ (calculateRealisticScore {} ⟨4, 0, 0, 0⟩ siteType context).overall) := by
  refine ⟨vuln_formula, ?_, ?_, ?_⟩
  · simp only [VULNERABILITY_PENALTIES_CRITICAL]
    omega
  · rw [vuln_formula]
    simp only [VULNERABILITY_PENALTIES_CRITICAL, VULNERABILITY_PENALTIES_HIGH,
      VULNERABILITY_PENALTIES_MEDIUM, VULNERABILITY_PENALTIES_LOW]
    omega
  · intro siteType context
    rw [overall_spec]; omega

/-- C6: `filterFalsePositives` is idempotent — filtering an
already-filtered finding list changes nothing. -/
theorem claim_C6 (vulnerabilities : List VulnerableTechnology) :
    filterFalsePositives (filterFalsePositives vulnerabilities) =
      filterFalsePositives vulnerabilities := by
  simp [filterFalsePositives, List.filter_filter]

/-- Rank of a letter grade in the fixed `A+ > A > … > D > F` ordering
(larger is better). -/
def gradeRank : String → ℕ
  | "A+" => 10
  | "A" => 9
  | "A-" => 8
  | "B+" => 7
  | "B" => 6
  | "B-" => 5
  | "C+" => 4
  | "C" => 3
  | "C-" => 2
  | "D" => 1
  | _ => 0

/-- Rank of a score against a descending threshold list: the first
threshold that the score reaches determines the rank (count of that
threshold and all below it). -/
def rankAux : List ℚ → ℚ → ℕ
  | [], _ => 0
  | t :: ts, z => if t ≤ z then ts.length + 1 else rankAux ts z

theorem rankAux_le_length (ts : List ℚ) (z : ℚ) : rankAux ts z ≤ ts.length := by
  induction ts with
  | nil => simp [rankAux]
  | cons t ts ih =>
      simp only [rankAux, List.length_cons]
      split_ifs
      · exact Nat.le_refl _
      · exact Nat.le_trans ih (Nat.le_succ _)

theorem rankAux_mono (ts : List ℚ) (x y : ℚ) (hxy : y ≤ x) :
    rankAux ts y ≤ rankAux ts x := by
  induction ts with
  | nil => exact Nat.le_refl _
  | cons t ts ih =>
      simp only [rankAux]
      by_cases hty : t ≤ y
      · rw [if_pos hty, if_pos (le_trans hty hxy)]
      · rw [if_neg hty]
        by_cases htx : t ≤ x
        · rw [if_pos htx]
          exact Nat.le_trans (rankAux_le_length ts y) (Nat.le_succ _)
        · rw [if_neg htx]
          exact ih

set_option maxHeartbeats 1600000 in
/-- The grade rank of `calculateGrade` is the descending-threshold rank
over the table's ten thresholds. -/
theorem rank_eq_rankAux (z : ℚ) :
    gradeRank (calculateGrade z) =
      rankAux [95, 90, 85, 80, 75, 70, 65, 60, 55, 50] z := by
  unfold calculateGrade
  simp only [rankAux, List.length_cons, List.length_nil]
  split_ifs <;> rfl

/-- C8: `calculateGrade` is the fixed 11-step threshold table (`A+` for
scores ≥ 95 down to `F` below 50) and is monotone: a higher score never
gets a worse grade. -/
theorem claim_C8 :
    (∀ x : ℚ, 95 ≤ x → calculateGrade x = "A+") ∧
    (∀ x : ℚ, x < 50 → calculateGrade x = "F") ∧
    (∀ x y : ℚ, y ≤ x → gradeRank (calculateGrade y) ≤ gradeRank (calculateGrade x)) := by
  refine ⟨?_, ?_, ?_⟩
  · intro x hx
    unfold calculateGrade
    rw [if_pos hx]
  · intro x hx
    unfold calculateGrade
    rw [if_neg (not_le.mpr (by linarith)), if_neg (not_le.mpr (by linarith)),
        if_neg (not_le.mpr (by linarith)), if_neg (not_le.mpr (by linarith)),
        if_neg (not_le.mpr (by linarith)), if_neg (not_le.mpr (by linarith)),
        if_neg (not_le.mpr (by linarith)), if_neg (not_le.mpr (by linarith)),
        if_neg (not_le.mpr (by linarith)), if_neg (not_le.mpr hx)]
  · intro x y hxy
    rw [rank_eq_rankAux, rank_eq_rankAux]
    exact rankAux_mono _ x y hxy

/-- Witness for C8 at concrete scores 50 ≤ 97. -/
theorem claim_C8_witness :
    (50 : ℚ) ≤ 97 ∧ gradeRank (calculateGrade 50) ≤ gradeRank (calculateGrade 97) :=
  ⟨by norm_num, claim_C8.2.2 97 50 (by norm_num)⟩

/-- C10: the legacy `getScoreGrade` of the main application and the new
scorer's `calculateGrade` agree on every numeric score. -/
theorem claim_C10 (score : ℚ) : getScoreGrade score = calculateGrade score := rfl

/-- C3 (behaviour of the code at the all-headers-absent input): the
header evaluator returns `present = 0`, `missing = 89` and
`score = 89 = present + missing` — the missing-header penalty points are
ADDED to the header score, not subtracted as the specified
`present − missing` (which would be `−89` here). -/
theorem claim_C3 :
    evaluateHeadersRealistically {} none = { present := 0, missing := 89, score := 89 } ∧
    (evaluateHeadersRealistically {} none).score ≠
      (evaluateHeadersRealistically {} none).present -
        (evaluateHeadersRealistically {} none).missing := by
  have h : evaluateHeadersRealistically {} none =
      { present := 0, missing := 89, score := 89 } := by
    simp only [evaluateHeadersRealistically, HEADER_WEIGHTS, List.foldl_cons, List.foldl_nil,
      headerStep, SecurityHeaders.get, jsHeaderValue, calculateMissingHeaderPenalty]
    norm_num [jsRound_eq]
  rw [h]
  exact ⟨rfl, by decide⟩

/-- The scraped-data input for C9: zero e-commerce products and a
detected technology record named `React`. -/
def c9Data : ScrapedData :=
  { title := ""
    url := "https://example.com"
    technologies := [{ name := "React" }]
    ecommerce := some { paymentMethods := [], totalProducts := 0 }
    securityAnalysis :=
      { securityHeaders := { csp := false, hsts := false, xss := false, contentType := false }
        sslAnalysis :=
          { hasSSL := false, validCertificate := false, tlsVersion := "", httpsEnabled := false }
        vulnerableTechnologies := [] }
    usersDetected := { hasUsers := false, accessPoints := [] } }

/-- C9 (behaviour of the code at the failing input): with
`totalProducts = 0` and a technology record named `React`,
`determineSiteType` returns `"enterprise-smb"`, not `"saas-platform"` —
`data.technologies.includes('React')` compares the records themselves
against a string und never fires. -/
theorem claim_C9 :
    (c9Data.ecommerce.map (fun ec => ec.totalProducts) = some 0) ∧
    (c9Data.technologies.any (fun t => t.name == "React" || t.name == "Vue.js") = true) ∧
    determineSiteType c9Data = "enterprise-smb" ∧
    determineSiteType c9Data ≠ "saas-platform" := by
  refine ⟨rfl, rfl, ?_, ?_⟩ <;> decide

/-- The HTML input for C5: a single line whose only credential-shaped
content is a Google Maps API key, written as a JSON-style
`"password": "AIzaSy…"` pair. -/
def c5Html : String :=
  "\x7b\"password\": \"AIzaSyD1234567890123456789012345678901234\"\x7d"

/-- The Google Maps API key occurring in `c5Html`. -/
def c5Key : String := "AIzaSyD1234567890123456789012345678901234"

/-- C5 (behaviour of the code at the failing input): `c5Key` matches the
allowlisted Google Maps pattern `/^AIzaSy[a-zA-Z0-9_-]{35}$/`, occurs in
`c5Html`, and yet the credential scanner produces a
`🔑 HARDCODED CREDENTIAL` finding for that line: the quoted-value
extraction grabs `"password"` instead of the key, so the safe-pattern
allowlist never sees the credential. -/
theorem claim_C5 :
    safeGoogleMaps c5Key = true ∧
    isSafeKnownPattern c5Key = true ∧
    strContains c5Html c5Key = true ∧
    passwordCredentialFindings c5Html =
      [{ name := "🔑 HARDCODED CREDENTIAL"
         version := "Líneas: 1"
         vulnerability := "Hardcoded Password detected - Contraseñas hardcodeadas exponen acceso directo a sistemas y bases de datos"
         severity := "critical"
         lineNumbers := [1]
         recommendation := some "Usar sistemas de autenticación seguros y hashing de contraseñas"
         context := none }] := by
  refine ⟨?_, ?_, ?_, ?_⟩ <;> decide

/-- The fallback scorer stays within `[0, 100]` and respects the HTTPS
floor of 65. -/
theorem fallback_bounds (data : ScrapedData) :
    0 ≤ calculatePrivacyScoreFallback data ∧
    calculatePrivacyScoreFallback data ≤ 100 ∧
    (data.securityAnalysis.sslAnalysis.httpsEnabled = true →
      65 ≤ calculatePrivacyScoreFallback data) := by
  refine ⟨?_, ?_, ?_⟩
  · simp only [calculatePrivacyScoreFallback]
    rw [jsRound_intCast]
    omega
  · simp only [calculatePrivacyScoreFallback]
    rw [jsRound_intCast]
    omega
  · intro hssl
    simp only [calculatePrivacyScoreFallback, hssl]
    rw [jsRound_intCast]
    split_ifs <;> omega

/-- C4: whenever the primary scorer raises, `calculatePrivacyScore`
returns the fallback scorer's result instead of propagating the
exception; the returned score lies in `[0, 100]` and is at least 65
whenever HTTPS is enabled. -/
theorem claim_C4 (data : ScrapedData)
    (herr : calculatePrivacyScorePrimary data = .error ()) :
    calculatePrivacyScore data = calculatePrivacyScoreFallback data ∧
    0 ≤ calculatePrivacyScore data ∧ calculatePrivacyScore data ≤ 100 ∧
    (data.securityAnalysis.sslAnalysis.httpsEnabled = true →
      65 ≤ calculatePrivacyScore data) := by
  have hd : calculatePrivacyScore data = calculatePrivacyScoreFallback data := by
    unfold calculatePrivacyScore
    rw [herr]
  obtain ⟨h0, h100, h65⟩ := fallback_bounds data
  rw [hd]
  exact ⟨rfl, h0, h100, h65⟩

/-- A scraped-data input on which the primary scorer raises: `ecommerce`
is absent at runtime, so `generateSiteContext` dereferences `null`. -/
def c4Data : ScrapedData :=
  { title := ""
    url := "https://example.com"
    technologies := []
    ecommerce := none
    securityAnalysis :=
      { securityHeaders := { csp := true, hsts := true, xss := false, contentType := true }
        sslAnalysis :=
          { hasSSL := true, validCertificate := true, tlsVersion := "TLS 1.2+",
            httpsEnabled := true }
        vulnerableTechnologies := [] }
    usersDetected := { hasUsers := false, accessPoints := [] } }

/-- Witness for C4: at `c4Data` the primary scorer raises and the
returned score respects the HTTPS floor. -/
theorem claim_C4_witness :
    calculatePrivacyScorePrimary c4Data = .error () ∧
    65 ≤ calculatePrivacyScore c4Data :=
  ⟨rfl, (claim_C4 c4Data rfl).2.2.2 rfl⟩

/-- With all seven tracked headers present (truthy) and of maximal
quality, the header evaluator yields 89 present points, 0 missing points
and header score 89. -/
theorem headers_perfect_eval (h : SecurityHeaders) (ctx : Option SiteContext)
    (c s f t r p x : String)
    (hc : h.csp = some c) (hcne : c.isEmpty = false)
    (hcq : evaluateCSPQuality c = 1)
    (hs : h.hsts = some s) (hsne : s.isEmpty = false)
    (hsq : evaluateHSTSQuality s = 1)
    (hf : h.frameOptions = some f) (hfne : f.isEmpty = false)
    (hfq : (strContains f "DENY" || strContains f "SAMEORIGIN") = true)
    (ht : h.contentTypeOptions = some t) (htne : t.isEmpty = false)
    (hr : h.referrerPolicy = some r) (hrne : r.isEmpty = false)
    (hp : h.permissionsPolicy = some p) (hpne : p.isEmpty = false)
    (hx : h.xssProtection = some x) (hxne : x.isEmpty = false) :
    evaluateHeadersRealistically h ctx = { present := 89, missing := 0, score := 89 } := by
  have q1 : evaluateHeaderQuality "content-security-policy" c = 1 := by
    rw [show evaluateHeaderQuality "content-security-policy" c = evaluateCSPQuality c from rfl,
      hcq]
  have q2 : evaluateHeaderQuality "strict-transport-security" s = 1 := by
    rw [show evaluateHeaderQuality "strict-transport-security" s = evaluateHSTSQuality s from rfl,
      hsq]
  have q3 : evaluateHeaderQuality "x-frame-options" f = 1 := by
    rw [show evaluateHeaderQuality "x-frame-options" f =
          if strContains f "DENY" || strContains f "SAMEORIGIN" then 1 else 7/10 from rfl, hfq]
    rfl
  have q4 : evaluateHeaderQuality "x-content-type-options" t = 1 := by
    rw [show evaluateHeaderQuality "x-content-type-options" t =
          if t.isEmpty then 0 else 1 from rfl, htne]
    rfl
  have q5 : evaluateHeaderQuality "referrer-policy" r = 1 := by
    rw [show evaluateHeaderQuality "referrer-policy" r =
          if r.isEmpty then 0 else 1 from rfl, hrne]
    rfl
  have q6 : evaluateHeaderQuality "permissions-policy" p = 1 := by
    rw [show evaluateHeaderQuality "permissions-policy" p =
          if p.isEmpty then 0 else 1 from rfl, hpne]
    rfl
  have q7 : evaluateHeaderQuality "x-xss-protection" x = 1 := by
    rw [show evaluateHeaderQuality "x-xss-protection" x =
          if x.isEmpty then 0 else 1 from rfl, hxne]
    rfl
  simp only [evaluateHeadersRealistically, HEADER_WEIGHTS, List.foldl_cons, List.foldl_nil,
    headerStep, SecurityHeaders.get, jsHeaderValue, hc, hs, hf, ht, hr, hp, hx,
    hcne, hsne, hfne, htne, hrne, hpne, hxne, q1, q2, q3, q4, q5, q6, q7]
  norm_num [jsRound_eq, q1, q2, q3, q4, q5, q6, q7]

/-- The zero-findings, all-headers-valid, `enterprise-smb` scenario:
`overall ≥ 90` and the risk level is the string `"Bajo"`. -/
theorem perfectScenario (h : SecurityHeaders) (ctx : Option SiteContext)
    (c s f t r p x : String)
    (hc : h.csp = some c) (hcne : c.isEmpty = false)
    (hcq : evaluateCSPQuality c = 1)
    (hs : h.hsts = some s) (hsne : s.isEmpty = false)
    (hsq : evaluateHSTSQuality s = 1)
    (hf : h.frameOptions = some f) (hfne : f.isEmpty = false)
    (hfq : (strContains f "DENY" || strContains f "SAMEORIGIN") = true)
    (ht : h.contentTypeOptions = some t) (htne : t.isEmpty = false)
    (hr : h.referrerPolicy = some r) (hrne : r.isEmpty = false)
    (hp : h.permissionsPolicy = some p) (hpne : p.isEmpty = false)
    (hx : h.xssProtection = some x) (hxne : x.isEmpty = false)
    (hmax : strContains s "max-age" = true) :
    90 ≤ (calculateRealisticScore h ⟨0, 0, 0, 0⟩ "enterprise-smb" ctx).overall ∧
    (calculateRealisticScore h ⟨0, 0, 0, 0⟩ "enterprise-smb" ctx).riskLevel = "Bajo" := by
  have hh := headers_perfect_eval h ctx c s f t r p x hc hcne hcq hs hsne hsq hf hfne hfq
    ht htne hr hrne hp hpne hx hxne
  have hsc : (evaluateHeadersRealistically h ctx).score = 89 := by rw [hh]
  have hv : evaluateVulnerabilitiesRealistically ⟨0, 0, 0, 0⟩ = 0 := by
    rw [vuln_formula]
    simp only [VULNERABILITY_PENALTIES_CRITICAL, VULNERABILITY_PENALTIES_HIGH,
      VULNERABILITY_PENALTIES_MEDIUM, VULNERABILITY_PENALTIES_LOW]
    omega
  have hb : 8 ≤ calculateContextualBonus h (VulnerabilityData.mk 0 0 0 0) ctx := by
    simp only [calculateContextualBonus, hs, hmax]
    cases ctx with
    | none => norm_num
    | some c0 =>
        norm_num
        split_ifs <;> omega
  have hbase : SITE_BASELINES "enterprise-smb" = 70 := rfl
  constructor
  · rw [overall_spec, hsc, hv, hbase]
    omega
  · rw [riskLevel_spec, hsc, hv, hbase]
    have h100 : max 0 (min 100
        (70 + 89 + 0 + calculateContextualBonus h (VulnerabilityData.mk 0 0 0 0) ctx)) = 100 := by
      omega
    rw [h100]
    norm_num [calculateRiskLevel]

/-- C7 (amended): with zero findings, all seven headers present and
valid, HSTS announcing `max-age` and site type `enterprise-smb`, the
overall score is ≥ 90 and the risk level is `"Bajo"` — the Spanish word
for Low — rather than the English string `"Low"`. -/
theorem claim_C7 (h : SecurityHeaders) (ctx : Option SiteContext)
    (c s f t r p x : String)
    (hc : h.csp = some c) (hcne : c.isEmpty = false)
    (hcq : evaluateCSPQuality c = 1)
    (hs : h.hsts = some s) (hsne : s.isEmpty = false)
    (hsq : evaluateHSTSQuality s = 1)
    (hf : h.frameOptions = some f) (hfne : f.isEmpty = false)
    (hfq : (strContains f "DENY" || strContains f "SAMEORIGIN") = true)
    (ht : h.contentTypeOptions = some t) (htne : t.isEmpty = false)
    (hr : h.referrerPolicy = some r) (hrne : r.isEmpty = false)
    (hp : h.permissionsPolicy = some p) (hpne : p.isEmpty = false)
    (hx : h.xssProtection = some x) (hxne : x.isEmpty = false)
    (hmax : strContains s "max-age" = true) :
    90 ≤ (calculateRealisticScore h ⟨0, 0, 0, 0⟩ "enterprise-smb" ctx).overall ∧
    (calculateRealisticScore h ⟨0, 0, 0, 0⟩ "enterprise-smb" ctx).riskLevel = "Bajo" :=
  perfectScenario h ctx c s f t r p x hc hcne hcq hs hsne hsq hf hfne hfq
    ht htne hr hrne hp hpne hx hxne hmax

/-- The concrete CSP value used in the C7 scenario inputs. -/
def c7Csp : String := "default-src a; script-src b; style-src c"

/-- The concrete HSTS value used in the C7 scenario inputs. -/
def c7Hsts : String := "max-age=31536000; includeSubDomains; preload"

/-- All seven tracked headers present with valid values. -/
def c7Headers : SecurityHeaders :=
  { csp := some c7Csp
    hsts := some c7Hsts
    frameOptions := some "DENY"
    contentTypeOptions := some "nosniff"
    referrerPolicy := some "no-referrer"
    permissionsPolicy := some "geolocation=()"
    xssProtection := some "1; mode=block" }

/-- `c7Csp` has maximal CSP quality. -/
theorem c7Csp_quality : evaluateCSPQuality c7Csp = 1 := by
  norm_num [evaluateCSPQuality, min_def,
    show strContains c7Csp "default-src" = true from rfl,
    show strContains c7Csp "script-src" = true from rfl,
    show strContains c7Csp "style-src" = true from rfl,
    show strContains c7Csp "\x27unsafe-inline\x27" = false from rfl,
    show strContains c7Csp "nonce-" = false from rfl,
    show strContains c7Csp "sha256-" = false from rfl]

/-- `c7Hsts` has maximal HSTS quality. -/
theorem c7Hsts_quality : evaluateHSTSQuality c7Hsts = 1 := by
  norm_num [evaluateHSTSQuality, min_def,
    show strContains c7Hsts "max-age=" = true from rfl,
    show strContains c7Hsts "includeSubDomains" = true from rfl,
    show strContains c7Hsts "preload" = true from rfl]

/-- Witness for C7 at the concrete all-valid-headers input. -/
theorem claim_C7_witness :
    90 ≤ (calculateRealisticScore c7Headers ⟨0, 0, 0, 0⟩ "enterprise-smb" none).overall ∧
    (calculateRealisticScore c7Headers ⟨0, 0, 0, 0⟩ "enterprise-smb" none).riskLevel = "Bajo" :=
  claim_C7 c7Headers none c7Csp c7Hsts "DENY" "nosniff" "no-referrer" "geolocation=()"
    "1; mode=block" rfl rfl c7Csp_quality rfl rfl c7Hsts_quality rfl rfl (by rfl)
    rfl rfl rfl rfl rfl rfl rfl rfl rfl

/-- Counterexample for C7 as stated: at the concrete scenario input the
overall score is ≥ 90 but the risk level is not the string `"Low"` (the
code returns Spanish risk-level strings). -/
theorem claim_C7_counterexample :
    90 ≤ (calculateRealisticScore c7Headers ⟨0, 0, 0, 0⟩ "enterprise-smb" none).overall ∧
    (calculateRealisticScore c7Headers ⟨0, 0, 0, 0⟩ "enterprise-smb" none).riskLevel ≠ "Low" := by
  obtain ⟨h1, h2⟩ := perfectScenario c7Headers none c7Csp c7Hsts "DENY" "nosniff" "no-referrer"
    "geolocation=()" "1; mode=block" rfl rfl c7Csp_quality rfl rfl c7Hsts_quality rfl rfl
    (by rfl) rfl rfl rfl rfl rfl rfl rfl rfl rfl
  refine ⟨h1, ?_⟩
  rw [h2]
  decide

end Scrapii
